import Mathlib

/-!
Shallow embedding of the error/stack bridging subsystem of `src/util.rs`
(the safety bridge between Rust host code and an embedded Lua VM).

The Lua C API is modelled by an explicit `LuaState`: the operand stack is a
list of values (head = top of stack, Lua index `-1`), userdata that carry a
`WrappedError` live in an explicit heap keyed by allocation ids, and the
single registry slot the bridge uses (the sentinel key
`ERROR_METATABLE_REGISTRY_KEY`) is the `errorMT` field.  Rust `panic!` /
`assert!` failures and `process::abort` are explicit result constructors,
never `Option`-collapsed, because the spec distinguishes them from returned
errors.
-/

set_option autoImplicit false

/-- Modelled from the spec: the structured error taxonomy of `error.rs`
(`LuaSyntaxError`), a source file of this repository that is not under
`src/`.  The spec splits the VM compile-time fault into "incomplete input"
versus a general syntax fault; `util.rs` constructs the two variants as
`LuaSyntaxError::IncompleteStatement(..)` and `LuaSyntaxError::Syntax(..)`
(the latter is named `SyntaxFault` here). -/
inductive LuaSyntaxError where
  | IncompleteStatement (msg : String)
  | SyntaxFault (msg : String)
  deriving DecidableEq, Repr

/-- Modelled from the spec: the structured error type `LuaError` of
`error.rs`, a source file of this repository that is not under `src/`.
Variants follow the taxonomy table of the spec and the constructors used by
`util.rs`: `StackOverflow`, `RuntimeError(msg)`, a syntax fault (wrapped
`LuaSyntaxError`, via `.into()`), `ErrorError(msg)`, and
`CallbackError(traceback, Arc<cause>)` whose shared `Arc` handle is modelled
by structural nesting (equality of `Arc` contents is equality by kind and
message). -/
inductive LuaError where
  | StackOverflow
  | RuntimeError (msg : String)
  | SyntaxError (e : LuaSyntaxError)
  | ErrorError (msg : String)
  | CallbackError (traceback : String) (cause : LuaError)
  deriving DecidableEq, Repr

/-- The payload of a captured Rust panic (`Box<Any + Send>`).  A payload
captured from the host is an opaque allocation, modelled by an id; the
`placeholder` constructor is the fresh boxed string the bridge substitutes
when a consumed panic slot is read again
(`Box::new("internal error: panic error used twice")`).  A fresh box is a
distinct allocation from any captured payload, hence a distinct
constructor. -/
inductive PanicPayload where
  | captured (id : Nat)
  | placeholder (msg : String)
  deriving DecidableEq, Repr

/-- Model of `enum WrappedError { Error(LuaError), Panic(Option<Box<Any + Send>>) }`
from `util.rs`. -/
inductive WrappedError where
  | Error (err : LuaError)
  | Panic (payload : Option PanicPayload)
  deriving DecidableEq, Repr

/-- A Lua value as far as the bridge observes it.  Full userdata carry the
id of their heap cell and, if set, the id of their metatable
(`lua_setmetatable` attaches it); `cclosure` is the `xpcall_msgh` C closure
with its single upvalue.  Values irrelevant to the bridge (numbers,
plain functions, ...) never appear in the modelled code paths. -/
inductive Value where
  | nil
  | boolean (b : Bool)
  | lightuserdata (addr : Nat)
  | str (text : String)
  | table (id : Nat)
  | userdata (id : Nat) (mt : Option Nat)
  | cclosure (upvalue : Value)
  deriving DecidableEq, Repr

/-- The modelled `lua_State`: operand stack (head = top), the heap of
`WrappedError` userdata cells, the registry slot under the sentinel key
`ERROR_METATABLE_REGISTRY_KEY` (id of the installed error metatable, if
any), a fresh-allocation counter, and the text `luaL_traceback` would
render for the current VM call stack. -/
structure LuaState where
  stack : List Value
  heap : List (Nat × WrappedError)
  errorMT : Option Nat
  nextId : Nat
  tracebackText : String
  deriving DecidableEq, Repr

/- Lua result codes (Lua 5.3 `lua.h` values, as used through `ffi`). -/

def LUA_OK : Int := 0

def LUA_YIELD : Int := 1

def LUA_ERRRUN : Int := 2

def LUA_ERRSYNTAX : Int := 3

def LUA_ERRMEM : Int := 4

def LUA_ERRGCMM : Int := 5

def LUA_ERRERR : Int := 6

def LUA_MULTRET : Int := -1

/-- Model of `lua_gettop`: current depth of the operand stack. -/
def lua_gettop (s : LuaState) : Nat :=
  s.stack.length

/-- Read the value at a Lua stack index: negative indices count from the
top (`-1` = top), positive from the bottom (`1` = bottom); out-of-range
indices denote no value. -/
def getValue (s : LuaState) (i : Int) : Option Value :=
  if i < 0 then
    s.stack.get? (-i - 1).toNat
  else if 1 ≤ i ∧ i ≤ (s.stack.length : Int) then
    s.stack.get? (s.stack.length - i.toNat)
  else
    none

/-- Overwrite the value at a valid Lua stack index (used by `lua_copy` and
`lua_setmetatable`); an invalid index leaves the state unchanged. -/
def setValue (s : LuaState) (i : Int) (v : Value) : LuaState :=
  if i < 0 then
    { s with stack := s.stack.set (-i - 1).toNat v }
  else if 1 ≤ i ∧ i ≤ (s.stack.length : Int) then
    { s with stack := s.stack.set (s.stack.length - i.toNat) v }
  else
    s

/-- Push a value on top of the stack. -/
def lua_push (s : LuaState) (v : Value) : LuaState :=
  { s with stack := v :: s.stack }

/-- Model of `lua_pop(state, n)`. -/
def lua_pop (s : LuaState) (n : Nat) : LuaState :=
  { s with stack := s.stack.drop n }

/-- Model of `lua_settop`: truncate the stack to depth `n`, or pad with nils when
`n` exceeds the current depth; a negative `n` counts from the top as in the
C API. -/
def lua_settop (s : LuaState) (n : Int) : LuaState :=
  let len : Int := s.stack.length
  let j : Int := if n < 0 then len + n + 1 else n
  if j ≤ 0 then
    { s with stack := [] }
  else if j ≤ len then
    { s with stack := s.stack.drop (s.stack.length - j.toNat) }
  else
    { s with stack := List.replicate (j.toNat - s.stack.length) Value.nil ++ s.stack }

/-- Model of `lua_pushvalue`: push a copy of the value at the given index. -/
def lua_pushvalue (s : LuaState) (i : Int) : LuaState :=
  lua_push s ((getValue s i).getD Value.nil)

/-- Model of `lua_copy(state, fromidx, toidx)`. -/
def lua_copy (s : LuaState) (fromidx toidx : Int) : LuaState :=
  match getValue s fromidx with
  | some v => setValue s toidx v
  | none => s

/-- Model of `lua_insert`: move the top value to the given index, shifting the
values above that index up. -/
def lua_insert (s : LuaState) (idx : Int) : LuaState :=
  match s.stack with
  | [] => s
  | t :: rest =>
    let n : Int := s.stack.length
    let j : Int := if idx < 0 then n + idx + 1 else idx
    if 1 ≤ j ∧ j ≤ n then
      { s with stack := rest.take (s.stack.length - j.toNat) ++ t :: rest.drop (s.stack.length - j.toNat) }
    else
      s

/-- Model of `lua_tolstring` as observed by the bridge: only string values render as
text (a null pointer — here `none` — for everything else the modelled code
can encounter). -/
def lua_tolstring (v : Value) : Option String :=
  match v with
  | Value.str t => some t
  | _ => none

/-- Rust `str::ends_with`: the character sequence of `suffix` is a suffix
of the character sequence of the string (executable model of the Rust
method used by the classifier's end-of-input heuristic). -/
def ends_with (s suffix : String) : Bool :=
  suffix.data.isSuffixOf s.data

/-- Model of `lua_isnil` at an index. -/
def lua_isnil (s : LuaState) (i : Int) : Bool :=
  getValue s i = some Value.nil

/-- Model of `lua_rawequal`: raw (primitive) equality of the values at two indices;
for tables and userdata this is identity of the underlying object, modelled
by id equality. -/
def lua_rawequal (s : LuaState) (i j : Int) : Bool :=
  match getValue s i, getValue s j with
  | some a, some b => decide (a = b)
  | _, _ => false

/-- Content of the `WrappedError` heap cell with the given id. -/
def heapGet (s : LuaState) (id : Nat) : Option WrappedError :=
  (s.heap.find? (fun p => p.1 == id)).map (fun p => p.2)

/-- Overwrite the `WrappedError` heap cell with the given id (in-place
mutation through the userdata pointer, e.g. `Option::take`). -/
def heapSet (s : LuaState) (id : Nat) (w : WrappedError) : LuaState :=
  { s with heap := s.heap.map (fun p => if p.1 = id then (id, w) else p) }

/-- Model of `get_error_metatable` (`util.rs:494`): push the registry value stored
under the sentinel key `ERROR_METATABLE_REGISTRY_KEY` (nil when no error
metatable has been installed yet). -/
def get_error_metatable (s : LuaState) : LuaState :=
  lua_push s (match s.errorMT with
    | some tid => Value.table tid
    | none => Value.nil)

/-- Model of `is_wrapped_error` (`util.rs:470`): the value at the index is a
userdata (`lua_touserdata` non-null), it has a metatable, and that
metatable is raw-equal to the registry's error metatable.  Light userdata
have no metatable, so they fail the `lua_getmetatable` step. -/
def is_wrapped_error (s : LuaState) (index : Int) : Bool :=
  match getValue s index with
  | some (Value.userdata _ (some mt)) => s.errorMT = some mt
  | _ => false

/-- Model of `is_panic_error` (`util.rs:438`): like `is_wrapped_error`, then reads
the userdata content and reports whether it is `WrappedError::Panic`. -/
def is_panic_error (s : LuaState) (index : Int) : Bool :=
  match getValue s index with
  | some (Value.userdata id (some mt)) =>
    if s.errorMT = some mt then
      match heapGet s id with
      | some (WrappedError.Panic _) => true
      | _ => false
    else
      false
  | _ => false

/-- Model of `lua_setmetatable(state, objindex)`: pop the table from the top of the
stack and record it as the metatable of the userdata at `objindex` (the
only object kind the bridge sets a metatable on). -/
def lua_setmetatable (s : LuaState) (objindex : Int) : LuaState :=
  match getValue s (-1), getValue s objindex with
  | some (Value.table tid), some (Value.userdata uid _) =>
    lua_pop (setValue s objindex (Value.userdata uid (some tid))) 1
  | _, _ => lua_pop s 1

/-- Model of `do_push_wrapped_error` (`util.rs:371`): allocate a userdata cell
holding the `WrappedError`, then fetch the error metatable from the
registry; if it is nil, build a fresh metatable and store it under the
sentinel registry key (its `__gc` / `__tostring` / `__metatable` fields are
not observed by any modelled path and are not tracked); finally
`lua_setmetatable` attaches the (existing or fresh) metatable to the new
userdata. -/
def do_push_wrapped_error (s : LuaState) (err : WrappedError) : LuaState :=
  let uid := s.nextId
  let s1 : LuaState :=
    { s with
      nextId := s.nextId + 1
      heap := (uid, err) :: s.heap
      stack := Value.userdata uid none :: s.stack }
  let s2 := get_error_metatable s1
  if lua_isnil s2 (-1) then
    let s3 := lua_pop s2 1
    let tid := s3.nextId
    let s4 : LuaState :=
      { s3 with
        nextId := s3.nextId + 1
        errorMT := some tid
        stack := Value.table tid :: s3.stack }
    lua_setmetatable s4 (-2)
  else
    lua_setmetatable s2 (-2)

/-- Model of `push_wrapped_error` (`util.rs:213`). -/
def push_wrapped_error (s : LuaState) (err : LuaError) : LuaState :=
  do_push_wrapped_error s (WrappedError.Error err)

/-- Model of `push_wrapped_panic` (`util.rs:218`). -/
def push_wrapped_panic (s : LuaState) (p : PanicPayload) : LuaState :=
  do_push_wrapped_error s (WrappedError.Panic (some p))

/-- Result of `pop_wrapped_error` (`util.rs:224`): a returned `LuaError`,
a `resume_unwind` of a panic payload, or a failed `assert!` (a Rust
panic with a message, distinct from resuming a captured payload). -/
inductive PopOut where
  | errorVal (s : LuaState) (e : LuaError)
  | unwound (s : LuaState) (p : PanicPayload)
  | panicked (msg : String)
  deriving DecidableEq, Repr

/-- Model of `pop_wrapped_error` (`util.rs:224`): assert the stack is non-empty and
that the top is a wrapped error; for `WrappedError::Error` clone the error,
pop it off, and return it; for `WrappedError::Panic` take the payload out
of its slot (leaving `None` behind, substituting the fresh placeholder box
when the slot was already empty), clear the whole Lua stack
(`lua_settop(state, 0)`), and resume the unwind. -/
def pop_wrapped_error (s : LuaState) : PopOut :=
  if ¬ 0 < lua_gettop s then
    PopOut.panicked "pop_wrapped_error called with nothing on the stack"
  else if ¬ is_wrapped_error s (-1) then
    PopOut.panicked "pop_wrapped_error called when the top of the stack is not a WrappedError"
  else
    match getValue s (-1) with
    | some (Value.userdata id _) =>
      match heapGet s id with
      | some (WrappedError.Error err) => PopOut.errorVal (lua_pop s 1) err
      | some (WrappedError.Panic p) =>
        PopOut.unwound (lua_settop (heapSet s id (WrappedError.Panic none)) 0)
          (p.getD (PanicPayload.placeholder "internal error: panic error used twice"))
      | none => PopOut.panicked "dangling wrapped error userdata"
    | _ => PopOut.panicked "top of the stack is not a userdata"

/-- Result of `handle_error` (`util.rs:121`): success passthrough, a
returned typed error, a resumed panic unwind, a Rust `panic!`, or a
`process::abort`. -/
inductive Outcome where
  | ok (s : LuaState)
  | err (s : LuaState) (e : LuaError)
  | unwound (s : LuaState) (p : PanicPayload)
  | panicked (msg : String)
  | aborted (msg : String)
  deriving DecidableEq, Repr

/-- The `err_string` read by `handle_error`'s non-carrier branch: the
top-of-stack value rendered as text, or the `"<unprintable error>"`
placeholder when `lua_tolstring` yields a null pointer. -/
def errStringOf (s : LuaState) : String :=
  match (getValue s (-1)).bind lua_tolstring with
  | some t => t
  | none => "<unprintable error>"

/-- Model of `handle_error` (`util.rs:121`), the error classifier: `LUA_OK` and
`LUA_YIELD` pass through; a wrapped error on top of the stack is popped
(returning the structured error, or resuming a captured panic); otherwise
the top of the stack is read as text and the result code is mapped to a
typed error: `LUA_ERRRUN → RuntimeError`, `LUA_ERRSYNTAX →` incomplete
input when the message ends with `"<eof>"` and a general syntax fault
otherwise, `LUA_ERRERR → ErrorError`; `LUA_ERRMEM` and `LUA_ERRGCMM` abort
the process after a diagnostic line, and any other code is a `panic!`. -/
def handle_error (s : LuaState) (err : Int) : Outcome :=
  if err = LUA_OK ∨ err = LUA_YIELD then
    Outcome.ok s
  else if is_wrapped_error s (-1) then
    match pop_wrapped_error s with
    | PopOut.errorVal s' e => Outcome.err s' e
    | PopOut.unwound s' p => Outcome.unwound s' p
    | PopOut.panicked m => Outcome.panicked m
  else
    let err_string := errStringOf s
    let s1 := lua_pop s 1
    if err = LUA_ERRRUN then
      Outcome.err s1 (LuaError.RuntimeError err_string)
    else if err = LUA_ERRSYNTAX then
      if ends_with err_string "<eof>" then
        Outcome.err s1 (LuaError.SyntaxError (LuaSyntaxError.IncompleteStatement err_string))
      else
        Outcome.err s1 (LuaError.SyntaxError (LuaSyntaxError.SyntaxFault err_string))
    else if err = LUA_ERRERR then
      Outcome.err s1 (LuaError.ErrorError err_string)
    else if err = LUA_ERRMEM then
      Outcome.aborted "Lua memory error, aborting!"
    else if err = LUA_ERRGCMM then
      Outcome.aborted "Lua error during __gc, aborting!"
    else
      Outcome.panicked "unrecognized lua error code"

/-- Result of running an operation under `stack_guard` (`util.rs:34`). -/
inductive GuardOut (R : Type) where
  | ok (s : LuaState) (r : R)
  | err (s : LuaState) (e : LuaError)
  | panicked (msg : String)
  deriving DecidableEq, Repr

/-- Model of `stack_guard` (`util.rs:34`): compute `expected = lua_gettop + change`
and assert it is non-negative before running the operation (the operation
mutates the state and yields a `LuaResult`, modelled as a state transformer
returning `Except`); on success assert the new depth equals `expected`
exactly; on failure assert the new depth is not below `expected` and
truncate the stack to `expected` when it is above. -/
def stack_guard {R : Type} (s : LuaState) (change : Int)
    (op : LuaState → LuaState × Except LuaError R) : GuardOut R :=
  let expected : Int := (lua_gettop s : Int) + change
  if expected < 0 then
    GuardOut.panicked "lua stack error, too many values would be popped"
  else
    match op s with
    | (s', Except.ok r) =>
      if (lua_gettop s' : Int) = expected then
        GuardOut.ok s' r
      else
        GuardOut.panicked
          ("lua stack error, expected stack to be " ++ toString expected ++
            ", got " ++ toString (lua_gettop s'))
    | (s', Except.error e) =>
      let top : Int := (lua_gettop s' : Int)
      if top < expected then
        GuardOut.panicked
          ("lua stack error, " ++ toString (top - expected) ++ " too many values popped")
      else if top > expected then
        GuardOut.err (lua_settop s' expected) e
      else
        GuardOut.err s' e

/-- Model of `luaL_traceback(state, state, msg, 0)`: push the textual rendering of
the current VM call stack (`tracebackText`), prefixed by `msg` and a
newline when a message is given. -/
def luaL_traceback (s : LuaState) (msg : Option String) : LuaState :=
  lua_push s (Value.str (match msg with
    | some m => m ++ "\n" ++ s.tracebackText
    | none => s.tracebackText))

/-- Result of a VM-callable C function such as the traceback message
handler or `xpcall_msgh`: a normal return (of the shown state), or the
impossible case of a Rust panic escaping the handler. -/
inductive HandlerOut where
  | ret (s : LuaState)
  | unwound (s : LuaState) (p : PanicPayload)
  | panicked (msg : String)
  deriving DecidableEq, Repr

/-- Model of `pcall_with_traceback::message_handler` (`util.rs:259`): if the
in-flight error (the handler's single argument, at index 1) is a wrapped
error and not a panic, pop it, capture a traceback, and push it back
re-wrapped as `CallbackError(traceback, Arc(error))`; a panic carrier is
left untouched; a plain VM error value is rendered as text (with the
`"<unprintable lua error>"` fallback) and a traceback is pushed with it as
prefix.  The handler always reports one result: the value left on top. -/
def message_handler (s : LuaState) : HandlerOut :=
  if is_wrapped_error s 1 then
    if ¬ is_panic_error s 1 then
      match pop_wrapped_error s with
      | PopOut.errorVal s1 error =>
        let s2 := luaL_traceback s1 none
        let traceback := ((getValue s2 (-1)).bind lua_tolstring).getD ""
        HandlerOut.ret (push_wrapped_error s2 (LuaError.CallbackError traceback error))
      | PopOut.unwound s1 p => HandlerOut.unwound s1 p
      | PopOut.panicked m => HandlerOut.panicked m
    else
      HandlerOut.ret s
  else
    match (getValue s 1).bind lua_tolstring with
    | some m => HandlerOut.ret (luaL_traceback s (some m))
    | none => HandlerOut.ret (luaL_traceback s (some "<unprintable lua error>"))

/-- Result of a safe call shim as observed by the VM: a normal return with
a result count, or `lua_error` re-raising the value on top. -/
inductive ShimOut where
  | ret (s : LuaState) (nresults : Int)
  | raise (s : LuaState)
  deriving DecidableEq, Repr

/-- Model of `safe_pcall` (`util.rs:319`): run `lua_pcall` (the VM primitive,
passed as an oracle taking the state, `nargs` and `nresults` and returning
the result code and the resulting state); when it failed and the caught
error is a panic carrier, re-raise it with `lua_error` instead of letting
Lua observe it; otherwise return everything on the stack. -/
def safe_pcall (pc : LuaState → Int → Int → Int × LuaState) (s : LuaState) : ShimOut :=
  let r := pc s ((lua_gettop s : Int) - 1) LUA_MULTRET
  if r.1 ≠ LUA_OK ∧ is_panic_error r.2 (-1) then
    ShimOut.raise r.2
  else
    ShimOut.ret r.2 (lua_gettop r.2)

/-- The stack shuffle `safe_xpcall` (`util.rs:329`) performs before its
protected call: duplicate the user handler (index 2), wrap it as the
`xpcall_msgh` C closure, overwrite index 2 with the function at index 1,
and rotate the closure down to index 1 so it serves as the message
handler. -/
def safe_xpcall_setup (s : LuaState) : LuaState :=
  let s1 := lua_pushvalue s 2
  let s2 := match s1.stack with
    | v :: rest => { s1 with stack := Value.cclosure v :: rest }
    | [] => s1
  let s3 := lua_copy s2 1 2
  lua_insert s3 1

/-- Model of `safe_xpcall` (`util.rs:329`): after the setup shuffle, run `lua_pcall`
with the wrapped handler at index 1; when it failed and the caught error is
a panic carrier, re-raise it with `lua_error`; otherwise return the pcall
result code as the C function result. -/
def safe_xpcall (pc : LuaState → Int → Int → Int × LuaState) (s : LuaState) : ShimOut :=
  let s4 := safe_xpcall_setup s
  let r := pc s4 ((lua_gettop s4 : Int) - 2) 1
  if r.1 ≠ LUA_OK ∧ is_panic_error r.2 (-1) then
    ShimOut.raise r.2
  else
    ShimOut.ret r.2 r.1

/-- Model of `safe_xpcall::xpcall_msgh` (`util.rs:330`): the message handler closure
built by `safe_xpcall`.  A panic carrier on top is returned untouched
without invoking the user handler; otherwise the user handler (the
closure's upvalue) is pushed, rotated to the bottom, and called on the
error (`lua_call`, an oracle, since it runs arbitrary VM code). -/
def xpcall_msgh (handler : Value) (callf : LuaState → LuaState) (s : LuaState) : HandlerOut :=
  if is_panic_error s (-1) then
    HandlerOut.ret s
  else
    HandlerOut.ret (callf (lua_insert (lua_push s handler) 1))

/-- The structured error held by the wrapped-error carrier on top of the
stack, if the top is such a carrier. -/
def wrappedErrorAtTop (s : LuaState) : Option LuaError :=
  match getValue s (-1) with
  | some (Value.userdata id _) =>
    match heapGet s id with
    | some (WrappedError.Error e) => some e
    | _ => none
  | _ => none

/-- The structured error a returning handler left on top of the stack. -/
def HandlerOut.errorAtTop : HandlerOut → Option LuaError
  | HandlerOut.ret s => wrappedErrorAtTop s
  | _ => none

/-- The payload carried by a `resume_unwind` outcome of
`pop_wrapped_error`. -/
def PopOut.payload : PopOut → Option PanicPayload
  | PopOut.unwound _ p => some p
  | _ => none

/-- A state whose only stack value is a wrapped structured error that
already carries a traceback (a `CallbackError`), exactly what one crossing
of a protected call leaves behind. -/
def tracedErrState : LuaState :=
  { stack := [Value.userdata 0 (some 1)],
    heap := [(0, WrappedError.Error (LuaError.CallbackError "trace one" (LuaError.RuntimeError "boom")))],
    errorMT := some 1, nextId := 2, tracebackText := "trace two" }

/-- A state whose only stack value is a wrapped plain runtime error. -/
def plainErrState : LuaState :=
  { stack := [Value.userdata 0 (some 1)],
    heap := [(0, WrappedError.Error (LuaError.RuntimeError "first failure"))],
    errorMT := some 1, nextId := 2, tracebackText := "trace text" }

/-- A state whose only stack value is a wrapped captured panic. -/
def panicCarrierState : LuaState :=
  { stack := [Value.userdata 0 (some 1)],
    heap := [(0, WrappedError.Panic (some (PanicPayload.captured 7)))],
    errorMT := some 1, nextId := 2, tracebackText := "tb" }

/-- A state whose only stack value is a plain Lua error string ending in
the end-of-input marker. -/
def eofMsgState : LuaState :=
  { stack := [Value.str "unfinished chunk near <eof>"],
    heap := [], errorMT := none, nextId := 0, tracebackText := "tb" }

/-- A fresh state with an empty stack and no installed error metatable. -/
def emptyState : LuaState :=
  { stack := [], heap := [], errorMT := none, nextId := 0, tracebackText := "tb" }

/-- Concrete guarded operation: push one string and succeed. -/
def opPushOne : LuaState → LuaState × Except LuaError Nat :=
  fun s => (lua_push s (Value.str "x"), Except.ok 7)

/-- Concrete guarded operation: push two strings, then fail. -/
def opPushTwoFail : LuaState → LuaState × Except LuaError Nat :=
  fun s =>
    (lua_push (lua_push s (Value.str "a")) (Value.str "b"),
      Except.error LuaError.StackOverflow)

/-- Oracle standing for a `lua_pcall` whose protected body failed leaving a
captured panic carrier on top of the stack. -/
def pcallPanicOracle : LuaState → Int → Int → Int × LuaState :=
  fun _ _ _ => (LUA_ERRRUN, panicCarrierState)

theorem getValue_neg_one (s : LuaState) : getValue s (-1) = s.stack.head? := by
  simp [getValue, List.head?_eq_getElem?]

theorem getValue_neg_two (s : LuaState) : getValue s (-2) = s.stack.get? 1 := by
  simp [getValue]

theorem gettop_settop (s : LuaState) (n : Int) (h : 0 ≤ n) :
    (lua_gettop (lua_settop s n) : Int) = n := by
  simp only [lua_gettop, lua_settop]
  split_ifs with h1 h2 <;> simp_all <;> omega

theorem find_map_overwrite (l : List (Nat × WrappedError)) (id : Nat) (w : WrappedError)
    (h : (l.find? (fun p => p.1 == id)).isSome) :
    (l.map (fun p => if p.1 = id then (id, w) else p)).find? (fun p => p.1 == id)
      = some (id, w) := by
  induction l with
  | nil => simp at h
  | cons a l ih =>
    by_cases ha : a.1 = id
    · simp only [List.map_cons, if_pos ha]
      rw [List.find?_cons_of_pos _ (by simp)]
    · rw [List.find?_cons_of_neg _ (by simp [ha])] at h
      simp only [List.map_cons, if_neg ha]
      rw [List.find?_cons_of_neg _ (by simp [ha])]
      exact ih h

theorem heapGet_heapSet (s : LuaState) (id : Nat) (w : WrappedError)
    (h : (heapGet s id).isSome) : heapGet (heapSet s id w) id = some w := by
  have h' : (s.heap.find? (fun p => p.1 == id)).isSome = true := by
    unfold heapGet at h
    cases hf : s.heap.find? (fun p => p.1 == id) <;> simp [hf] at h ⊢
  unfold heapGet heapSet
  rw [find_map_overwrite _ _ w h']
  rfl

theorem do_push_wrapped_error_spec (s : LuaState) (w : WrappedError) :
    do_push_wrapped_error s w =
      match s.errorMT with
      | some tid =>
        { s with nextId := s.nextId + 1, heap := (s.nextId, w) :: s.heap,
                 stack := Value.userdata s.nextId (some tid) :: s.stack }
      | none =>
        { s with nextId := s.nextId + 2, heap := (s.nextId, w) :: s.heap,
                 errorMT := some (s.nextId + 1),
                 stack := Value.userdata s.nextId (some (s.nextId + 1)) :: s.stack } := by
  cases h : s.errorMT with
  | none =>
    simp [do_push_wrapped_error, get_error_metatable, h, lua_isnil, lua_push, lua_pop,
          lua_setmetatable, getValue_neg_one, getValue_neg_two, setValue]
  | some tid =>
    simp [do_push_wrapped_error, get_error_metatable, h, lua_isnil, lua_push, lua_pop,
          lua_setmetatable, getValue_neg_one, getValue_neg_two, setValue]

/-- Claim C2: for every guarded operation run under `stack_guard` with
declared delta `change`: if the operation succeeds, the stack depth
afterwards equals exactly the depth before plus `change` (for every
`change`, including 0 and negative — `change : Int` is arbitrary), and any
deviation is an unrecoverable panic, never a returned error. -/
theorem stack_guard_success_exact {R : Type}
    (s s' : LuaState) (change : Int) (r : R)
    (op : LuaState → LuaState × Except LuaError R)
    (hop : op s = (s', Except.ok r))
    (hpre : 0 ≤ (lua_gettop s : Int) + change) :
    (stack_guard s change op = GuardOut.ok s' r ↔
      (lua_gettop s' : Int) = (lua_gettop s : Int) + change)
    ∧ ((lua_gettop s' : Int) ≠ (lua_gettop s : Int) + change →
        stack_guard s change op =
          GuardOut.panicked
            ("lua stack error, expected stack to be " ++
              toString ((lua_gettop s : Int) + change) ++
              ", got " ++ toString (lua_gettop s')))
    ∧ (∀ s2 e, stack_guard s change op ≠ GuardOut.err s2 e) := by
  unfold stack_guard
  rw [if_neg (by omega), hop]
  dsimp only
  by_cases hd : (lua_gettop s' : Int) = (lua_gettop s : Int) + change
  · rw [if_pos hd]
    simp [hd]
  · rw [if_neg hd]
    simp [hd]

/-- Witness for C2 at a concrete input: from the empty stack, an operation
declaring delta 1 that pushes one value succeeds and the guard reports its
result. -/
theorem stack_guard_success_exact_witness :
    0 ≤ (lua_gettop emptyState : Int) + 1 ∧
    stack_guard emptyState 1 opPushOne = GuardOut.ok (lua_push emptyState (Value.str "x")) 7 := by
  refine ⟨by decide, ?_⟩
  exact (stack_guard_success_exact emptyState (lua_push emptyState (Value.str "x")) 1 7
    opPushOne rfl (by decide)).1.mpr (by decide)

/-- Claim C3: for every guarded operation under `stack_guard` with delta
`change` that fails: a resulting depth below `depth before + change` is an
unrecoverable panic; a depth above it is truncated to exactly
`depth before + change` before the error is returned; so on every error
return the depth is exactly `depth before + change`. -/
theorem stack_guard_failure_floor {R : Type}
    (s s' : LuaState) (change : Int) (e : LuaError)
    (op : LuaState → LuaState × Except LuaError R)
    (hop : op s = (s', Except.error e))
    (hpre : 0 ≤ (lua_gettop s : Int) + change) :
    ((lua_gettop s' : Int) < (lua_gettop s : Int) + change →
      stack_guard s change op =
        GuardOut.panicked
          ("lua stack error, " ++
            toString ((lua_gettop s' : Int) - ((lua_gettop s : Int) + change)) ++
            " too many values popped"))
    ∧ ((lua_gettop s : Int) + change < (lua_gettop s' : Int) →
        stack_guard s change op =
          GuardOut.err (lua_settop s' ((lua_gettop s : Int) + change)) e)
    ∧ ((lua_gettop s' : Int) = (lua_gettop s : Int) + change →
        stack_guard s change op = GuardOut.err s' e)
    ∧ (∀ s2 e2, stack_guard s change op = GuardOut.err s2 e2 →
        (lua_gettop s2 : Int) = (lua_gettop s : Int) + change) := by
  unfold stack_guard
  rw [if_neg (by omega), hop]
  dsimp only
  rcases lt_trichotomy ((lua_gettop s' : Int)) ((lua_gettop s : Int) + change) with hlt | heq | hgt
  · rw [if_pos hlt]
    exact ⟨fun _ => rfl, fun h => absurd h (by omega), fun h => absurd h (by omega),
      fun s2 e2 h => by cases h⟩
  · rw [if_neg (by omega), if_neg (by omega)]
    refine ⟨fun h => absurd h (by omega), fun h => absurd h (by omega), fun _ => rfl,
      fun s2 e2 h => ?_⟩
    cases h
    exact heq
  · rw [if_neg (by omega), if_pos (by omega)]
    refine ⟨fun h => absurd h (by omega), fun _ => rfl, fun h => absurd h (by omega),
      fun s2 e2 h => ?_⟩
    cases h
    exact gettop_settop s' _ hpre

/-- Witness for C3 at a concrete input: from the empty stack, an operation
declaring delta 1 that pushes two values and then fails has its stack
truncated to depth 1 before the error is returned. -/
theorem stack_guard_failure_floor_witness :
    0 ≤ (lua_gettop emptyState : Int) + 1 ∧
    stack_guard emptyState 1 opPushTwoFail =
      GuardOut.err
        (lua_settop (lua_push (lua_push emptyState (Value.str "a")) (Value.str "b")) 1)
        LuaError.StackOverflow := by
  refine ⟨by decide, ?_⟩
  exact ((stack_guard_failure_floor emptyState
    (lua_push (lua_push emptyState (Value.str "a")) (Value.str "b")) 1 LuaError.StackOverflow
    opPushTwoFail rfl (by decide)).2.1 (by decide))

/-- Claim C10: when the declared delta would bring the expected depth below
zero, `stack_guard` panics before executing the wrapped operation — the
result is this panic for every operation `op`, so the operation is never
run. -/
theorem stack_guard_rejects_overpop {R : Type}
    (s : LuaState) (change : Int)
    (op : LuaState → LuaState × Except LuaError R)
    (h : (lua_gettop s : Int) + change < 0) :
    stack_guard s change op =
      GuardOut.panicked "lua stack error, too many values would be popped" := by
  unfold stack_guard
  rw [if_pos h]

/-- Witness for C10 at a concrete input: popping from the empty stack
(delta -1) panics, with the operation never run. -/
theorem stack_guard_rejects_overpop_witness :
    (lua_gettop emptyState : Int) + (-1) < 0 ∧
    stack_guard emptyState (-1) opPushOne =
      GuardOut.panicked "lua stack error, too many values would be popped" := by
  exact ⟨by decide, stack_guard_rejects_overpop emptyState (-1) opPushOne (by decide)⟩

/-- Claim C5: round trip through the carrier — pushing any structured
error as a wrapped-error userdata and popping it back on the host side
yields an error equal to the original (full structural equality, hence
equality by kind and message), leaving the stack as it was before the
push. -/
theorem wrapped_error_roundtrip (s : LuaState) (e : LuaError) :
    pop_wrapped_error (push_wrapped_error s e) =
      PopOut.errorVal { push_wrapped_error s e with stack := s.stack } e := by
  unfold push_wrapped_error
  rw [do_push_wrapped_error_spec]
  cases h : s.errorMT with
  | none =>
    simp [pop_wrapped_error, is_wrapped_error, getValue_neg_one, heapGet, lua_gettop,
      lua_pop, List.find?_cons, h]
  | some tid =>
    simp [pop_wrapped_error, is_wrapped_error, getValue_neg_one, heapGet, lua_gettop,
      lua_pop, List.find?_cons, h]

/-- Claim C9: the carrier's error metatable is installed lazily and
idempotently under the sentinel registry key: after the first push the
registry slot is filled; a second push observes the same descriptor
(registry slot unchanged, only the one userdata id allocated), tags the new
carrier with that same descriptor, and two lookups of the descriptor are
raw-equal. -/
theorem error_metatable_installed_once (s : LuaState) (w1 w2 : WrappedError) :
    (do_push_wrapped_error s w1).errorMT.isSome = true
    ∧ (do_push_wrapped_error (do_push_wrapped_error s w1) w2).errorMT
        = (do_push_wrapped_error s w1).errorMT
    ∧ (do_push_wrapped_error (do_push_wrapped_error s w1) w2).nextId
        = (do_push_wrapped_error s w1).nextId + 1
    ∧ getValue (do_push_wrapped_error (do_push_wrapped_error s w1) w2) (-1)
        = some (Value.userdata (do_push_wrapped_error s w1).nextId
            (do_push_wrapped_error s w1).errorMT)
    ∧ lua_rawequal
        (get_error_metatable (get_error_metatable (do_push_wrapped_error s w1))) (-1) (-2)
        = true := by
  cases h : s.errorMT <;>
    simp [do_push_wrapped_error_spec, h, getValue_neg_one, getValue_neg_two,
      get_error_metatable, lua_push, lua_rawequal]

/-- Claim C4: when the classifier meets a `WrappedError::Panic` carrier on
top of the stack it never returns it as an error value: the VM stack is
cleared and the panic is resumed as a host unwind; the captured payload is
consumed (the slot is left empty), and popping the same carrier again
yields the synthetic placeholder payload, which is distinct from every
captured payload. -/
theorem panic_resumed_never_returned (s : LuaState) (rest : List Value)
    (id mt k : Nat) (err : Int)
    (hstack : s.stack = Value.userdata id (some mt) :: rest)
    (hmt : s.errorMT = some mt)
    (hheap : heapGet s id = some (WrappedError.Panic (some (PanicPayload.captured k))))
    (herr1 : err ≠ LUA_OK) (herr2 : err ≠ LUA_YIELD) :
    handle_error s err
      = Outcome.unwound (lua_settop (heapSet s id (WrappedError.Panic none)) 0)
          (PanicPayload.captured k)
    ∧ (lua_settop (heapSet s id (WrappedError.Panic none)) 0).stack = []
    ∧ (∀ s2 e, handle_error s err ≠ Outcome.err s2 e)
    ∧ heapGet (lua_settop (heapSet s id (WrappedError.Panic none)) 0) id
        = some (WrappedError.Panic none)
    ∧ (pop_wrapped_error
        { lua_settop (heapSet s id (WrappedError.Panic none)) 0 with
          stack := [Value.userdata id (some mt)] }).payload
        = some (PanicPayload.placeholder "internal error: panic error used twice")
    ∧ (∀ m : String, PanicPayload.placeholder m ≠ PanicPayload.captured k) := by
  have hfindsome : (s.heap.find? (fun p => p.1 == id)).isSome = true := by
    unfold heapGet at hheap
    cases hf : s.heap.find? (fun p => p.1 == id) <;> simp [hf] at hheap ⊢
  have hfind := find_map_overwrite s.heap id (WrappedError.Panic none) hfindsome
  have hset : heapGet (heapSet s id (WrappedError.Panic none)) id
      = some (WrappedError.Panic none) :=
    heapGet_heapSet s id (WrappedError.Panic none) (by rw [hheap]; rfl)
  have hhe : handle_error s err
      = Outcome.unwound (lua_settop (heapSet s id (WrappedError.Panic none)) 0)
          (PanicPayload.captured k) := by
    simp [handle_error, herr1, herr2, pop_wrapped_error, is_wrapped_error, getValue_neg_one,
      hstack, hmt, hheap, lua_gettop]
  refine ⟨hhe, by simp [lua_settop], by simp [hhe], ?_, ?_, by simp⟩
  · simpa [lua_settop, heapSet, heapGet] using hset
  · simp [pop_wrapped_error, is_wrapped_error, getValue_neg_one, lua_gettop, hmt,
      lua_settop, heapSet, heapGet, hfind, PopOut.payload]

/-- Witness for C4 at a concrete input: a captured panic carrier on top of
the stack is resumed as an unwind with the original payload, with the
stack cleared. -/
theorem panic_resumed_never_returned_witness :
    heapGet panicCarrierState 0 = some (WrappedError.Panic (some (PanicPayload.captured 7))) ∧
    handle_error panicCarrierState LUA_ERRRUN
      = Outcome.unwound
          (lua_settop (heapSet panicCarrierState 0 (WrappedError.Panic none)) 0)
          (PanicPayload.captured 7) := by
  refine ⟨by decide, ?_⟩
  exact (panic_resumed_never_returned panicCarrierState [] 0 1 7 LUA_ERRRUN rfl rfl
    (by decide) (by decide) (by decide)).1

/-- Claim C6: for a failing protected operation whose top of stack is not
a wrapped-error carrier, the classifier reads the value as text (falling
back to the unprintable-error placeholder), and maps the result code:
`LUA_ERRRUN` to `RuntimeError` with the message preserved, `LUA_ERRERR` to
`ErrorError`, and `LUA_ERRSYNTAX` to incomplete input exactly when the
message ends with `"<eof>"`, else to a general syntax fault. -/
theorem handle_error_classifies (s : LuaState)
    (hnw : is_wrapped_error s (-1) = false) :
    handle_error s LUA_ERRRUN
      = Outcome.err (lua_pop s 1) (LuaError.RuntimeError (errStringOf s))
    ∧ handle_error s LUA_ERRERR
      = Outcome.err (lua_pop s 1) (LuaError.ErrorError (errStringOf s))
    ∧ handle_error s LUA_ERRSYNTAX
      = Outcome.err (lua_pop s 1)
          (if ends_with (errStringOf s) "<eof>" then
            LuaError.SyntaxError (LuaSyntaxError.IncompleteStatement (errStringOf s))
          else
            LuaError.SyntaxError (LuaSyntaxError.SyntaxFault (errStringOf s)))
    ∧ (∀ v, getValue s (-1) = some v → lua_tolstring v = none →
        errStringOf s = "<unprintable error>") := by
  refine ⟨?_, ?_, ?_, ?_⟩
  · simp [handle_error, hnw, LUA_ERRRUN, LUA_OK, LUA_YIELD, LUA_ERRSYNTAX]
  · simp [handle_error, hnw, LUA_ERRERR, LUA_OK, LUA_YIELD, LUA_ERRRUN, LUA_ERRSYNTAX]
  · by_cases he : ends_with (errStringOf s) "<eof>" <;>
      simp [handle_error, hnw, he, LUA_ERRSYNTAX, LUA_OK, LUA_YIELD, LUA_ERRRUN]
  · intro v hv ht
    simp [errStringOf, hv, ht]

/-- Witness for C6 at a concrete input: a syntax fault whose plain string
message ends in the end-of-input marker classifies as incomplete input. -/
theorem handle_error_classifies_witness :
    is_wrapped_error eofMsgState (-1) = false ∧
    handle_error eofMsgState LUA_ERRSYNTAX
      = Outcome.err (lua_pop eofMsgState 1)
          (LuaError.SyntaxError
            (LuaSyntaxError.IncompleteStatement "unfinished chunk near <eof>")) := by
  refine ⟨by decide, ?_⟩
  rw [(handle_error_classifies eofMsgState (by decide)).2.2.1]
  decide

/-- Claim C7: the classifier never returns an out-of-memory fault, a GC
fault, or an unrecognized result code as a recoverable error value: on
`LUA_ERRMEM` or `LUA_ERRGCMM` it aborts the process after a diagnostic
line, and any unrecognized code is a `panic!` (an internal-consistency
fault). -/
theorem handle_error_fatal (s : LuaState) (err : Int)
    (hnw : is_wrapped_error s (-1) = false)
    (h1 : err ≠ LUA_OK) (h2 : err ≠ LUA_YIELD) (h3 : err ≠ LUA_ERRRUN)
    (h4 : err ≠ LUA_ERRSYNTAX) (h5 : err ≠ LUA_ERRERR) (h6 : err ≠ LUA_ERRMEM)
    (h7 : err ≠ LUA_ERRGCMM) :
    handle_error s LUA_ERRMEM = Outcome.aborted "Lua memory error, aborting!"
    ∧ handle_error s LUA_ERRGCMM = Outcome.aborted "Lua error during __gc, aborting!"
    ∧ handle_error s err = Outcome.panicked "unrecognized lua error code"
    ∧ (∀ s2 e, handle_error s LUA_ERRMEM ≠ Outcome.err s2 e
        ∧ handle_error s LUA_ERRGCMM ≠ Outcome.err s2 e
        ∧ handle_error s err ≠ Outcome.err s2 e) := by
  have hmem : handle_error s LUA_ERRMEM = Outcome.aborted "Lua memory error, aborting!" := by
    simp [handle_error, hnw, LUA_ERRMEM, LUA_OK, LUA_YIELD, LUA_ERRRUN, LUA_ERRSYNTAX,
      LUA_ERRERR]
  have hgc : handle_error s LUA_ERRGCMM = Outcome.aborted "Lua error during __gc, aborting!" := by
    simp [handle_error, hnw, LUA_ERRGCMM, LUA_OK, LUA_YIELD, LUA_ERRRUN, LUA_ERRSYNTAX,
      LUA_ERRERR, LUA_ERRMEM]
  have hun : handle_error s err = Outcome.panicked "unrecognized lua error code" := by
    simp [handle_error, hnw, h1, h2, h3, h4, h5, h6, h7]
  exact ⟨hmem, hgc, hun, fun s2 e => ⟨by simp [hmem], by simp [hgc], by simp [hun]⟩⟩

/-- Witness for C7 at a concrete input: with a plain string on top,
`LUA_ERRMEM` aborts and the unrecognized code 42 panics. -/
theorem handle_error_fatal_witness :
    is_wrapped_error eofMsgState (-1) = false ∧
    handle_error eofMsgState LUA_ERRMEM = Outcome.aborted "Lua memory error, aborting!" ∧
    handle_error eofMsgState 42 = Outcome.panicked "unrecognized lua error code" := by
  have h := handle_error_fatal eofMsgState 42 (by decide) (by decide) (by decide)
    (by decide) (by decide) (by decide) (by decide) (by decide)
  exact ⟨by decide, h.1, h.2.2.1⟩

/-- Claim C1 (counterexample): invoking the traceback message handler on an
error that was already re-wrapped as a `CallbackError` carrying a trace is
not a no-op passthrough — the handler wraps it a second time, producing a
nested `CallbackError` with a second trace attached. -/
theorem message_handler_wraps_traced_again :
    message_handler tracedErrState ≠ HandlerOut.ret tracedErrState
    ∧ (message_handler tracedErrState).errorAtTop
        = some (LuaError.CallbackError "trace two"
            (LuaError.CallbackError "trace one" (LuaError.RuntimeError "boom"))) := by
  exact ⟨by decide, by decide⟩

/-- Claim C1 (amended): each invocation of the traceback message handler on
a non-panic wrapped structured error pops it and re-wraps it in a fresh
`CallbackError` layer carrying the current traceback — including when the
error is already a `CallbackError` from an earlier crossing (the cause `e`
below is arbitrary), so a trace is attached once per crossed protected
call, not at most once per error. -/
theorem message_handler_rewraps (s : LuaState) (id mt : Nat) (e : LuaError)
    (hstack : s.stack = [Value.userdata id (some mt)])
    (hmt : s.errorMT = some mt)
    (hheap : heapGet s id = some (WrappedError.Error e)) :
    message_handler s
      = HandlerOut.ret
          (push_wrapped_error (luaL_traceback (lua_pop s 1) none)
            (LuaError.CallbackError s.tracebackText e)) := by
  simp [message_handler, is_wrapped_error, is_panic_error, pop_wrapped_error,
    getValue_neg_one, getValue, hstack, hmt, hheap, lua_gettop, luaL_traceback,
    lua_push, lua_tolstring, lua_pop]

/-- Witness for C1 (amended) at a concrete input: a wrapped runtime error
is popped and re-wrapped as a `CallbackError` carrying the current
traceback. -/
theorem message_handler_rewraps_witness :
    heapGet plainErrState 0 = some (WrappedError.Error (LuaError.RuntimeError "first failure")) ∧
    message_handler plainErrState
      = HandlerOut.ret
          (push_wrapped_error (luaL_traceback (lua_pop plainErrState 1) none)
            (LuaError.CallbackError "trace text" (LuaError.RuntimeError "first failure"))) := by
  refine ⟨by decide, ?_⟩
  exact message_handler_rewraps plainErrState 0 1 (LuaError.RuntimeError "first failure")
    rfl rfl (by decide)

/-- Claim C8: a propagating host panic is never observably caught by VM
error handling: `safe_pcall` and `safe_xpcall` re-raise a caught panic
carrier via `lua_error` instead of returning it to VM code; the
`xpcall_msgh` closure returns a panic carrier untouched without calling the
user handler; and the traceback message handler leaves a panic carrier
untouched (never stringifying it or capturing it as VM text). -/
theorem panics_never_caught
    (pc pcx : LuaState → Int → Int → Int × LuaState)
    (s sx sm sh : LuaState) (s1 sx1 : LuaState) (res resx : Int)
    (u : Value) (cf : LuaState → LuaState)
    (hpc : pc s ((lua_gettop s : Int) - 1) LUA_MULTRET = (res, s1))
    (hres : res ≠ LUA_OK)
    (hp1 : is_panic_error s1 (-1) = true)
    (hpcx : pcx (safe_xpcall_setup sx) ((lua_gettop (safe_xpcall_setup sx) : Int) - 2) 1
      = (resx, sx1))
    (hresx : resx ≠ LUA_OK)
    (hpx1 : is_panic_error sx1 (-1) = true)
    (hw : is_wrapped_error sm 1 = true)
    (hpm : is_panic_error sm 1 = true)
    (hph : is_panic_error sh (-1) = true) :
    safe_pcall pc s = ShimOut.raise s1
    ∧ safe_xpcall pcx sx = ShimOut.raise sx1
    ∧ message_handler sm = HandlerOut.ret sm
    ∧ xpcall_msgh u cf sh = HandlerOut.ret sh := by
  refine ⟨?_, ?_, ?_, ?_⟩
  · simp [safe_pcall, hpc, hres, hp1]
  · simp [safe_xpcall, hpcx, hresx, hpx1]
  · simp [message_handler, hw, hpm]
  · simp [xpcall_msgh, hph]

/-- Witness for C8 at concrete inputs: a pcall oracle that fails leaving a
panic carrier on top makes both shims re-raise, and the message handler
passes the carrier through unchanged. -/
theorem panics_never_caught_witness :
    is_panic_error panicCarrierState (-1) = true ∧
    safe_pcall pcallPanicOracle emptyState = ShimOut.raise panicCarrierState ∧
    safe_xpcall pcallPanicOracle emptyState = ShimOut.raise panicCarrierState ∧
    message_handler panicCarrierState = HandlerOut.ret panicCarrierState := by
  have h := panics_never_caught pcallPanicOracle pcallPanicOracle emptyState emptyState
    panicCarrierState panicCarrierState panicCarrierState panicCarrierState
    LUA_ERRRUN LUA_ERRRUN Value.nil id rfl (by decide) (by decide) rfl (by decide)
    (by decide) (by decide) (by decide) (by decide)
  exact ⟨by decide, h.1, h.2.1, h.2.2.1⟩
